import Mathlib

/-!
Verification of the MCP-Travel-Agent repository.

This file gives a shallow embedding, in Lean 4, of the parts of the
repository that the specification's testable claims are about:

* `app/agent/orchestrator.py` — `AgentOrchestrator.handle_query`, the
  fan-out/fan-in workflow over the four MCP tool clients;
* `app/agent/query_parser.py` — `parse_user_query`;
* `app/mcp_servers/poi_discovery/server.py` — `search_pois` and `_haversine`;
* `app/mcp_servers/trivia/server.py` — context matching, the two-stage
  fact-extraction filter, source reliability scoring, `_get_trivia_impl`;
* the `RateLimiter` class shared (verbatim) by the geocoding, POI and
  trivia servers.

Modelling conventions:

* Python's `float` values are modelled as `ℚ` wherever the code only
  builds, compares and stores them, and as `ℝ` for the trigonometric
  Haversine computation.
* A remote call that may return data, raise any exception, or exceed the
  orchestrator's timeout is modelled by `Outcome`: `ok` carries the decoded
  value, `fail` covers both an exception and a timeout (the code treats the
  two identically: `except Exception` catches `asyncio.TimeoutError` too).
* JSON-ish structured data is modelled by `JsonVal`; a Python dict is a
  key/value association list.
* `asyncio.gather` runs the Wikipedia and trivia coroutines concurrently;
  each appends exactly one entry on success, so the only observable
  nondeterminism is which of the two appends first. That choice is the
  explicit `wikiFirst : Bool` parameter, and the theorems quantify over it.
-/

/-- JSON-like structured values exchanged with the MCP tools. -/
inductive JsonVal where
  | str (s : String)
  | num (q : ℚ)
  | bool (b : Bool)
  | null
  | arr (elems : List JsonVal)
  | obj (fields : List (String × JsonVal))

/-- A Python dict decoded from a tool reply: an association list. -/
abbrev PyDict := List (String × JsonVal)

/-- Result of one remote tool call as observed by the orchestrator:
either decoded data, or a failure (any raised exception, or expiry of the
`asyncio.wait_for` timeout — both land in the same `except` clause). -/
inductive Outcome (α : Type) where
  | ok (val : α)
  | fail

/-- `True` iff the call returned data. -/
def Outcome.isOk {α : Type} : Outcome α → Bool
  | .ok _ => true
  | .fail => false

/-- `app/agent/models.py` `ToolResult`: one entry of the aggregate
response, tagged with the producing server's name. -/
structure ToolResult where
  source : String
  data : JsonVal

/-- `app/agent/models.py` `AgentResponse`: the aggregate response. -/
structure AgentResponse where
  results : List ToolResult

/-- The behavior, for the one call the orchestrator makes to it, of each
of the four configured tool clients. -/
structure ClientBehaviors where
  geocoding : Outcome PyDict
  poi : Outcome JsonVal
  wikipedia : Outcome JsonVal
  trivia : Outcome JsonVal

/-- Python `k in d.keys()` for the decoded geocoding dict. -/
def hasKey (d : PyDict) (k : String) : Bool :=
  d.any (fun p => p.1 == k)

/-- Python truthiness of a dict (`if geocode_data ...`): empty is falsy. -/
def pyTruthyDict (d : PyDict) : Bool :=
  !d.isEmpty

/-- Python `d[k]` under a guard that guarantees the key is present. -/
def dget (d : PyDict) (k : String) : JsonVal :=
  (List.lookup k d).getD .null

/-- The guard on line 56 of `orchestrator.py`:
`if geocode_data and {"lat", "lon"} <= geocode_data.keys()`.
The POI tool is called exactly when this holds. -/
def poiCalled (b : ClientBehaviors) : Bool :=
  match b.geocoding with
  | .ok d => pyTruthyDict d && hasKey d "lat" && hasKey d "lon"
  | .fail => false

/-- Everything observable about one run of `AgentOrchestrator.handle_query`:
the aggregate result list plus the payload sent to each tool
(`none` when the tool was never called). -/
structure OrchestratorTrace where
  results : List ToolResult
  geocodingPayload : PyDict
  poiPayload : Option PyDict
  wikipediaPayload : PyDict
  triviaPayload : PyDict

/-- `AgentOrchestrator.handle_query` (orchestrator.py lines 29–87).

Step by step from the source:
1. call the geocoding tool with `{"location_name": query}`; on success
   append `ToolResult(source="geocoding", data=...)`, on failure append
   nothing (`geocode_data = None`);
2. if the returned dict is truthy and has both `"lat"` and `"lon"`, call
   the POI tool with `{"latitude": .., "longitude": .., "category": "tourism"}`
   (the category is hard-coded; the file's own TODO defers query parsing
   to a later task), appending on success only;
3. `asyncio.gather` the Wikipedia call (`{"poi_name": query}`) and the
   trivia call (`{"topic": query}`); each appends one entry on success.
   `wikiFirst` picks which of the two concurrent appends lands first. -/
def handle_query_trace (b : ClientBehaviors) (wikiFirst : Bool)
    (query : String) : OrchestratorTrace :=
  let geoResults : List ToolResult :=
    match b.geocoding with
    | .ok d => [⟨"geocoding", .obj d⟩]
    | .fail => []
  let poiPayload : Option PyDict :=
    if poiCalled b then
      match b.geocoding with
      | .ok d =>
          some [("latitude", dget d "lat"), ("longitude", dget d "lon"),
                ("category", .str "tourism")]
      | .fail => none
    else none
  let poiResults : List ToolResult :=
    if poiCalled b then
      match b.poi with
      | .ok v => [⟨"poi", v⟩]
      | .fail => []
    else []
  let wikiResults : List ToolResult :=
    match b.wikipedia with
    | .ok v => [⟨"wikipedia", v⟩]
    | .fail => []
  let triviaResults : List ToolResult :=
    match b.trivia with
    | .ok v => [⟨"trivia", v⟩]
    | .fail => []
  { results := geoResults ++ poiResults ++
      (if wikiFirst then wikiResults ++ triviaResults
       else triviaResults ++ wikiResults)
    geocodingPayload := [("location_name", .str query)]
    poiPayload := poiPayload
    wikipediaPayload := [("poi_name", .str query)]
    triviaPayload := [("topic", .str query)] }

/-- `AgentOrchestrator.handle_query`, result view. -/
def handle_query (b : ClientBehaviors) (wikiFirst : Bool)
    (query : String) : AgentResponse :=
  ⟨(handle_query_trace b wikiFirst query).results⟩

/-- Count of results tagged with a given source name. -/
def sourceCount (resp : AgentResponse) (s : String) : Nat :=
  resp.results.countP (fun r => r.source == s)

/-!
## Python string primitives

The repository uses `str.lower()`, `str.split()`, `str.strip()` and the
substring test `word in text`. Lean's built-in `String.toLower`/`trim`/
`split` are defined by well-founded recursion on byte positions and do not
reduce in the kernel, so the same operations are defined here structurally
on the underlying character lists.
-/

/-- ASCII lowering of one character (the inputs exercised by the code are
ASCII keyword tables and user text). -/
def lowerCh (c : Char) : Char :=
  if 65 ≤ c.toNat ∧ c.toNat ≤ 90 then Char.ofNat (c.toNat + 32) else c

/-- Python `s.lower()`. -/
def strLower (s : String) : String := ⟨s.data.map lowerCh⟩

/-- Whitespace characters recognised by Python `str.split()` (the ones
occurring in this repository's data). -/
def isSpaceCh (c : Char) : Bool := c == ' ' || c == '\t' || c == '\n' || c == '\r'

/-- Accumulator loop behind `pyWords`. -/
def wordsAux : List Char → List Char → List String
  | [], acc => if acc.isEmpty then [] else [⟨acc.reverse⟩]
  | c :: rest, acc =>
      if isSpaceCh c then
        (if acc.isEmpty then wordsAux rest [] else ⟨acc.reverse⟩ :: wordsAux rest [])
      else wordsAux rest (c :: acc)

/-- Python `s.split()`: split on runs of whitespace, dropping empties. -/
def pyWords (s : String) : List String := wordsAux s.data []

/-- Python `s.strip()`. -/
def strStrip (s : String) : String :=
  ⟨((s.data.dropWhile isSpaceCh).reverse.dropWhile isSpaceCh).reverse⟩

/-- Does the second character list start with the first? -/
def chStarts : List Char → List Char → Bool
  | [], _ => true
  | _ :: _, [] => false
  | a :: as, b :: bs => a == b && chStarts as bs

/-- Contiguous-sublist test on character lists. -/
def chContains (needle : List Char) : List Char → Bool
  | [] => needle.isEmpty
  | h :: t => chStarts needle (h :: t) || chContains needle t

/-- Python `needle in hay` on strings: substring containment. -/
def pyIn (needle hay : String) : Bool := chContains needle.data hay.data

/-!
## `app/agent/query_parser.py`
-/

/-- `CATEGORIES` (query_parser.py line 23): categories understood by the
POI server. -/
def CATEGORIES : List String :=
  ["tourism", "historic", "restaurant", "entertainment", "shopping"]

/-- Python `str(v)` applied to a decoded JSON value. String values render
as themselves (the only case the parser's happy path exercises); the other
renderings are schematic. -/
def pyStr : JsonVal → String
  | .str s => s
  | .num q => toString q
  | .bool true => "True"
  | .bool false => "False"
  | .null => "None"
  | .arr _ => "[...]"
  | .obj _ => "<dict>"

/-- `parse_user_query` (query_parser.py lines 26–60).

`modelResult` is the outcome of the GPT-4o-mini call composed with
`json.loads`: `ok data` when the API call succeeded and its content parsed
as a JSON object, `fail` when anything raised (API error, or unparseable
content) — every raise lands in the single `except` and yields the
fallback `{"location": query, "category": "tourism"}`. On success:
`location = str(data.get("location", "")).strip() or query` and
`category = str(data.get("category", "tourism")).strip()`, normalised to
`"tourism"` when not in `CATEGORIES`. -/
def parse_user_query (modelResult : Outcome PyDict) (query : String) :
    String × String :=
  match modelResult with
  | .fail => (query, "tourism")
  | .ok data =>
      let locRaw := strStrip (pyStr ((List.lookup "location" data).getD (.str "")))
      let location := if locRaw = "" then query else locRaw
      let catRaw := strStrip (pyStr ((List.lookup "category" data).getD (.str "tourism")))
      let category := if CATEGORIES.contains catRaw then catRaw else "tourism"
      (location, category)

/-!
## `app/mcp_servers/trivia/server.py`
-/

/-- `SOURCE_RELIABILITY` (trivia/server.py lines 107–111). -/
def SOURCE_RELIABILITY : List (String × ℚ) :=
  [("wikipedia", mkRat 9 10), ("britannica", mkRat 8 10), ("duckduckgo", mkRat 6 10)]

/-- `RELIABILITY_THRESHOLD` (trivia/server.py line 112). -/
def RELIABILITY_THRESHOLD : ℚ := mkRat 6 10

/-- `TRAVEL_KEYWORDS` (trivia/server.py lines 113–118). -/
def TRAVEL_KEYWORDS : List String :=
  ["travel", "tourist", "tourism", "visit", "destination",
   "city", "country", "landmark", "museum", "beach", "mountain",
   "attraction", "monument", "historic", "culture", "architecture",
   "famous", "popular", "location", "site", "built", "constructed"]

/-- `TriviaRequest` (trivia/server.py lines 79–86): `context = none`
models a missing optional context. -/
structure TriviaRequest where
  topic : String
  context : Option String

/-- `TriviaResponse` (trivia/server.py lines 88–96). -/
structure TriviaResponse where
  trivia : String
  source : String
  url : Option String
  reliability : ℚ

/-- `score_source` (trivia/server.py lines 120–122):
`SOURCE_RELIABILITY.get(source.lower(), 0.5)`. -/
def score_source (source : String) : ℚ :=
  (List.lookup (strLower source) SOURCE_RELIABILITY).getD (mkRat 1 2)

/-- Python truthiness of the optional context (`if request.context:`). -/
def contextTruthy (ctx : Option String) : Bool :=
  match ctx with
  | none => false
  | some s => !(s == "")

/-- `matches_context` (trivia/server.py lines 124–133): when a truthy
context is given, some context word must occur in the lowered text;
then some travel keyword or topic word must occur in it. -/
def matches_context (text : String) (req : TriviaRequest) : Bool :=
  let textLower := strLower text
  let contextOk :=
    if contextTruthy req.context then
      (pyWords (strLower (req.context.getD ""))).any (fun w => pyIn w textLower)
    else true
  if !contextOk then false
  else
    let topicWords := pyWords (strLower req.topic)
    (TRAVEL_KEYWORDS ++ topicWords).any (fun w => pyIn w textLower)

/-- One candidate fact: `(text, source, url)`. -/
abbrev Candidate := String × String × String

/-- `_extract_fact_strict` (trivia/server.py lines 197–202): first
candidate passing `matches_context`, else the empty triple. -/
def _extract_fact_strict (candidates : List Candidate) (req : TriviaRequest) :
    Candidate :=
  (candidates.find? (fun c => matches_context c.1 req)).getD ("", "", "")

/-- `_extract_fact_relaxed` (trivia/server.py lines 204–225). First pass:
a topic word occurs in the text and, when a truthy context is present,
a context word occurs as well. Final fallback: any topic-word match. -/
def _extract_fact_relaxed (candidates : List Candidate) (req : TriviaRequest) :
    Candidate :=
  let topicWords := pyWords (strLower req.topic)
  let firstPass := candidates.find? (fun c =>
    let textLower := strLower c.1
    topicWords.any (fun w => pyIn w textLower) &&
      (if contextTruthy req.context then
        (pyWords (strLower (req.context.getD ""))).any (fun w => pyIn w textLower)
       else true))
  match firstPass with
  | some c => c
  | none =>
      (candidates.find? (fun c =>
        topicWords.any (fun w => pyIn w (strLower c.1)))).getD ("", "", "")

/-- One entry of the DuckDuckGo `RelatedTopics` array, by the shape
`extract_fact` distinguishes: not a dict; a dict with a `"Text"` key
(and a `"FirstURL"` defaulting to `""`); a dict with a `"Topics"` list of
sub-entries each optionally carrying `("Text", "FirstURL")`; or a dict
with neither key. -/
inductive RTItem where
  | notDict
  | withText (text url : String)
  | withTopics (subs : List (Option (String × String)))
  | plainDict

/-- The fields of a DuckDuckGo Instant Answer reply that `extract_fact`
reads. `none` models a missing key. -/
structure DDGData where
  abstractText : Option String
  abstractSource : Option String
  abstractURL : Option String
  relatedTopics : List RTItem

/-- Candidate list collection inside `extract_fact` (trivia/server.py
lines 170–187): the abstract (when truthy) with its source defaulting to
`"DuckDuckGo"`, then every related-topic text. -/
def collectCandidates (data : DDGData) : List Candidate :=
  let abstractCands : List Candidate :=
    match data.abstractText with
    | some a =>
        if a == "" then []
        else [(a, data.abstractSource.getD "DuckDuckGo", data.abstractURL.getD "")]
    | none => []
  let rtCands : List Candidate :=
    (data.relatedTopics.map (fun item =>
      match item with
      | .withText t url => [(t, "DuckDuckGo", url)]
      | .withTopics subs =>
          (subs.map (fun sub =>
            match sub with
            | some (t, url) => [(t, "DuckDuckGo", url)]
            | none => [])).flatten
      | _ => [])).flatten
  abstractCands ++ rtCands

/-- `extract_fact` (trivia/server.py lines 158–195): strict stage first,
relaxed stage when the strict stage produced a falsy fact. -/
def extract_fact (data : DDGData) (req : TriviaRequest) : Candidate :=
  let candidates := collectCandidates data
  let strictResult := _extract_fact_strict candidates req
  if strictResult.1 == "" then _extract_fact_relaxed candidates req
  else strictResult

/-- `_get_trivia_impl` (trivia/server.py lines 231–261). `fetched` is the
outcome of `fetch_duckduckgo` (`fail` = timeout or HTTP error, both mapped
to a raised `RuntimeError`). An empty extracted fact raises; a reliability
below `RELIABILITY_THRESHOLD` raises; otherwise the structured response is
returned with `url or None` (empty string becomes `none`). -/
def _get_trivia_impl (fetched : Outcome DDGData) (req : TriviaRequest) :
    Except String TriviaResponse :=
  match fetched with
  | .fail => .error "DuckDuckGo request failed"
  | .ok data =>
      let c := extract_fact data req
      if c.1 == "" then .error "No travel-relevant trivia found"
      else
        let reliability := score_source c.2.1
        if reliability < RELIABILITY_THRESHOLD then .error "Low reliability source"
        else .ok ⟨c.1, c.2.1, if c.2.2 == "" then none else some c.2.2, reliability⟩

/-!
## `app/mcp_servers/poi_discovery/server.py`
-/

/-- `POISearchRequest` (poi_discovery/server.py lines 103–116). -/
structure POISearchRequest where
  latitude : ℚ
  longitude : ℚ
  category : String
  radius : ℤ

/-- One element of the parsed Overpass reply, with the fields
`search_pois` reads: optional top-level `lat`/`lon`, optional
`center.lat`/`center.lon` (way/relation format), the `tags` dict,
and the optional `type`. -/
structure OverpassElement where
  lat : Option ℚ
  lon : Option ℚ
  centerLat : Option ℚ
  centerLon : Option ℚ
  tags : List (String × String)
  type : Option String

/-- `POIResult` (poi_discovery/server.py lines 120–132), generic in the
type of the stored distance so that the same pipeline can be stated for
the real-valued Haversine distance. -/
structure POIResult (α : Type) where
  name : Option String
  lat : ℚ
  lon : ℚ
  type : String
  distance : α
deriving DecidableEq

/-- Python `el.get("lat") or el.get("center", {}).get("lat")`: the `or`
falls through when the left value is missing **or falsy** (the float
`0.0`). -/
def pyOrCoord : Option ℚ → Option ℚ → Option ℚ
  | some v, b => if v = 0 then b else some v
  | none, b => b

instance {α : Type} [LinearOrder α] :
    DecidableRel (fun p q : POIResult α => p.distance ≤ q.distance) :=
  fun p q => inferInstanceAs (Decidable (p.distance ≤ q.distance))

/-- The result-shaping stage of `search_pois` (poi_discovery/server.py
lines 285–317), parametric in the distance function that stands for
`_haversine`. For each element: extract coordinates (with the Python
`or`-fallback to the `center` dict), skip elements without both
coordinates, read `tags.get("name")` and `el.get("type", "node")`,
compute `dist(request.latitude, request.longitude, lat, lon)`; then
`results.sort(key=lambda r: r.distance)` (a stable ascending sort,
modelled by insertion sort) and `results[:20]`. -/
def search_pois_core {α : Type} [LinearOrder α]
    (dist : ℚ → ℚ → ℚ → ℚ → α) (req : POISearchRequest)
    (elements : List OverpassElement) : List (POIResult α) :=
  let results := elements.filterMap (fun el =>
    match pyOrCoord el.lat el.centerLat, pyOrCoord el.lon el.centerLon with
    | some la, some lo =>
        some { name := List.lookup "name" el.tags
               lat := la
               lon := lo
               type := el.type.getD "node"
               distance := dist req.latitude req.longitude la lo }
    | _, _ => none)
  (results.insertionSort (fun p q => p.distance ≤ q.distance)).take 20

/-- `math.radians` (degrees to radians). -/
noncomputable def radians (x : ℝ) : ℝ := x * Real.pi / 180

/-- `_haversine` (poi_discovery/server.py lines 136–165), over the real
numbers: Earth radius 6371000 m,
`a = sin²(Δφ/2) + cos φ₁ · cos φ₂ · sin²(Δλ/2)`,
distance `2·r·asin(√a)`. -/
noncomputable def _haversine (lat1 lon1 lat2 lon2 : ℝ) : ℝ :=
  let r : ℝ := 6371000
  let phi1 := radians lat1
  let phi2 := radians lat2
  let dphi := radians (lat2 - lat1)
  let dlambda := radians (lon2 - lon1)
  let a := Real.sin (dphi / 2) ^ 2 +
    Real.cos phi1 * Real.cos phi2 * Real.sin (dlambda / 2) ^ 2
  2 * r * Real.arcsin (Real.sqrt a)

/-- `search_pois` (poi_discovery/server.py lines 220–317) from the parsed
Overpass elements on: the shaping pipeline instantiated with the actual
`_haversine` distance. -/
noncomputable def search_pois (req : POISearchRequest)
    (elements : List OverpassElement) : List (POIResult ℝ) :=
  search_pois_core (fun la lo la2 lo2 => _haversine ↑la ↑lo ↑la2 ↑lo2) req elements

/-!
## `RateLimiter` (geocoding/server.py lines 38–75, poi_discovery/server.py
lines 68–94, trivia/server.py lines 56–71 — the three copies are
identical)

`wait()` runs under `async with self._lock`, so its body executes
serially; the model threads the state through a sequence of calls. The
clock is idealised: `time.monotonic()` at entry is the supplied arrival
time, `asyncio.sleep(d)` advances it by exactly `d`, and the
`time.monotonic()` recorded into `_last_call` after the sleep is the
completion time of the call.
-/

/-- The state a `RateLimiter` instance owns: `_interval = 1.0 /
rate_per_sec` and `_last_call` (initialised to `0.0`). -/
structure RateLimiterState where
  interval : ℚ
  last_call : ℚ

/-- `RateLimiter.__init__(rate_per_sec)`. -/
def RateLimiter.init (rate_per_sec : ℚ) : RateLimiterState :=
  ⟨1 / rate_per_sec, 0⟩

/-- One serialized execution of `RateLimiter.wait` starting at clock value
`now`: `sleep_for = _last_call + _interval - now`; sleep when positive;
record the post-sleep clock into `_last_call`. Returns (completion time,
new state). -/
def RateLimiter.wait (st : RateLimiterState) (now : ℚ) : ℚ × RateLimiterState :=
  let sleep_for := st.last_call + st.interval - now
  let completion := if 0 < sleep_for then now + sleep_for else now
  (completion, ⟨st.interval, completion⟩)

/-- Completion times of a sequence of `wait()` calls with the given
arrival clock readings, serialized by the limiter's lock. -/
def completionTimes (st : RateLimiterState) : List ℚ → List ℚ
  | [] => []
  | now :: rest =>
      let w := RateLimiter.wait st now
      w.1 :: completionTimes w.2 rest

/-!
## Helper lemmas
-/

/-- A `wait` completes no earlier than `_last_call + _interval`. -/
theorem RateLimiter.wait_fst_ge (st : RateLimiterState) (now : ℚ) :
    st.last_call + st.interval ≤ (RateLimiter.wait st now).1 := by
  unfold RateLimiter.wait
  dsimp only
  split
  · linarith
  · linarith [not_lt.mp (by assumption : ¬ 0 < st.last_call + st.interval - now)]

/-- Serialized `wait` calls: every completion is at least one interval
after the recorded last call, and consecutive completions are at least one
interval apart. -/
theorem completionTimes_spaced (i : ℚ) (hi : 0 ≤ i) :
    ∀ (times : List ℚ) (last : ℚ),
      (∀ t ∈ completionTimes ⟨i, last⟩ times, last + i ≤ t) ∧
      List.Pairwise (fun a b => a + i ≤ b) (completionTimes ⟨i, last⟩ times) := by
  intro times
  induction times with
  | nil => intro last; simp [completionTimes]
  | cons now rest ih =>
      intro last
      have hrw : completionTimes ⟨i, last⟩ (now :: rest) =
          (RateLimiter.wait ⟨i, last⟩ now).1 ::
            completionTimes ⟨i, (RateLimiter.wait ⟨i, last⟩ now).1⟩ rest := rfl
      set t := (RateLimiter.wait ⟨i, last⟩ now).1 with htdef
      have h1 : last + i ≤ t := RateLimiter.wait_fst_ge ⟨i, last⟩ now
      obtain ⟨ihMem, ihPair⟩ := ih t
      rw [hrw]
      constructor
      · intro u hu
        rcases List.mem_cons.mp hu with h | h
        · exact h ▸ h1
        · have := ihMem u h
          linarith
      · exact List.Pairwise.cons (fun u hu => ihMem u hu) ihPair

/-- The Haversine formula over the reals is symmetric in its two points. -/
theorem haversine_symm (lat1 lon1 lat2 lon2 : ℝ) :
    _haversine lat1 lon1 lat2 lon2 = _haversine lat2 lon2 lat1 lon1 := by
  have hs : ∀ x : ℝ, Real.sin (-x / 2) ^ 2 = Real.sin (x / 2) ^ 2 := by
    intro x
    rw [neg_div, Real.sin_neg, neg_sq]
  unfold _haversine
  dsimp only
  have h1 : radians (lat1 - lat2) = -radians (lat2 - lat1) := by unfold radians; ring
  have h2 : radians (lon1 - lon2) = -radians (lon2 - lon1) := by unfold radians; ring
  rw [h1, h2, hs, hs, mul_comm (Real.cos (radians lat2)) (Real.cos (radians lat1))]

/-- The Haversine distance of a point to itself is zero. -/
theorem haversine_self (lat lon : ℝ) : _haversine lat lon lat lon = 0 := by
  unfold _haversine radians
  simp

instance {α : Type} [LinearOrder α] :
    IsTotal (POIResult α) (fun p q => p.distance ≤ q.distance) :=
  ⟨fun p q => le_total p.distance q.distance⟩

instance {α : Type} [LinearOrder α] :
    IsTrans (POIResult α) (fun p q => p.distance ≤ q.distance) :=
  ⟨fun _ _ _ h1 h2 => le_trans h1 h2⟩

/-- The `search_pois` pipeline returns a list sorted by ascending
distance, for every distance function. -/
theorem search_pois_core_sorted {α : Type} [LinearOrder α]
    (dist : ℚ → ℚ → ℚ → ℚ → α) (req : POISearchRequest)
    (elements : List OverpassElement) :
    List.Sorted (fun p q : POIResult α => p.distance ≤ q.distance)
      (search_pois_core dist req elements) := by
  unfold search_pois_core
  exact List.Pairwise.sublist (List.take_sublist _ _)
    (List.sorted_insertionSort _ _)

/-- The `search_pois` pipeline returns at most 20 entries. -/
theorem search_pois_core_length_le {α : Type} [LinearOrder α]
    (dist : ℚ → ℚ → ℚ → ℚ → α) (req : POISearchRequest)
    (elements : List OverpassElement) :
    (search_pois_core dist req elements).length ≤ 20 := by
  unfold search_pois_core
  dsimp only
  rw [List.length_take]
  exact min_le_left _ _

/-- Every entry the pipeline returns stores exactly the distance computed
by the supplied distance function from the request's coordinates to the
entry's own coordinates. -/
theorem search_pois_core_distance_eq {α : Type} [LinearOrder α]
    (dist : ℚ → ℚ → ℚ → ℚ → α) (req : POISearchRequest)
    (elements : List OverpassElement) :
    ∀ p ∈ search_pois_core dist req elements,
      p.distance = dist req.latitude req.longitude p.lat p.lon := by
  intro p hp
  unfold search_pois_core at hp
  dsimp only at hp
  have hp2 := List.mem_of_mem_take hp
  have hp3 := (List.perm_insertionSort
    (fun p q : POIResult α => p.distance ≤ q.distance) _).mem_iff.mp hp2
  rw [List.mem_filterMap] at hp3
  obtain ⟨el, -, hel⟩ := hp3
  rcases hla : pyOrCoord el.lat el.centerLat with - | la <;>
    rcases hlo : pyOrCoord el.lon el.centerLon with - | lo <;>
    rw [hla, hlo] at hel <;> simp only [Option.some.injEq] at hel
  · cases hel
  · cases hel
  · cases hel
  · subst hel; rfl

/-!
## Claim theorems: rate limiter and Haversine
-/

/-- C8: with the limiter configured at rate 1 per second
(`RateLimiter(rate_per_sec=1)`, interval `1.0 / rate_per_sec`), no two
completions of `wait()` occur less than the configured interval apart, for
every sequence of arrival clock readings. Calls are serialized under the
internal lock (modelled by threading the state), and each waiter sleeps
for the remaining deficit since the recorded last-call timestamp (the
definition of `RateLimiter.wait`). -/
theorem claim_C8_rate_limiter_min_interval (times : List ℚ) :
    List.Pairwise (fun a b => a + (RateLimiter.init 1).interval ≤ b)
      (completionTimes (RateLimiter.init 1) times) := by
  have h := (completionTimes_spaced (RateLimiter.init 1).interval
    (by norm_num [RateLimiter.init]) times 0).2
  exact h

/-- C9: `_haversine` is symmetric in its two coordinate pairs, and the
distance from any point to itself is zero. -/
theorem claim_C9_haversine_symm_and_self :
    (∀ lat1 lon1 lat2 lon2 : ℝ,
      _haversine lat1 lon1 lat2 lon2 = _haversine lat2 lon2 lat1 lon1) ∧
    (∀ lat lon : ℝ, _haversine lat lon lat lon = 0) :=
  ⟨haversine_symm, haversine_self⟩

/-!
## Claim theorems: POI ranking
-/

/-- C5: for every parsed Overpass response, the list returned by
`search_pois` is sorted in ascending order of the `distance` field, that
field is exactly the Haversine distance from the request's
latitude/longitude to the POI's own coordinates, and the list has at most
20 entries. -/
theorem claim_C5_search_pois_distance_sorted (req : POISearchRequest)
    (elements : List OverpassElement) :
    List.Sorted (fun p q : POIResult ℝ => p.distance ≤ q.distance)
        (search_pois req elements) ∧
    (search_pois req elements).length ≤ 20 ∧
    ∀ p ∈ search_pois req elements,
      p.distance = _haversine ↑req.latitude ↑req.longitude ↑p.lat ↑p.lon :=
  ⟨search_pois_core_sorted _ _ _, search_pois_core_length_le _ _ _,
    search_pois_core_distance_eq _ _ _⟩

/-- C5 witness: the theorem applied at a concrete request and response. -/
theorem claim_C5_witness :
    (search_pois ⟨1, 2, "tourism", 5000⟩ []).length ≤ 20 :=
  (claim_C5_search_pois_distance_sorted ⟨1, 2, "tourism", 5000⟩ []).2.1

/-- C4 (amended): for every distance function and every parsed Overpass
response, the output of the `search_pois` pipeline is sorted by ascending
distance alone and truncated to at most 20 entries. (The claim's
"descending importance first" tie-break does not hold: the code under
`src/` attaches no importance to POIs and sorts purely by distance; see
the counterexample.) -/
theorem claim_C4_amended_distance_only_sort {α : Type} [LinearOrder α]
    (dist : ℚ → ℚ → ℚ → ℚ → α) (req : POISearchRequest)
    (elements : List OverpassElement) :
    List.Sorted (fun p q : POIResult α => p.distance ≤ q.distance)
        (search_pois_core dist req elements) ∧
    (search_pois_core dist req elements).length ≤ 20 :=
  ⟨search_pois_core_sorted _ _ _, search_pois_core_length_le _ _ _⟩

/-- C4 witness: the amended theorem applied at a concrete instance. -/
theorem claim_C4_witness :
    (search_pois_core (fun _ _ la _ => la) ⟨1, 2, "tourism", 5000⟩ []).length ≤ 20 :=
  (claim_C4_amended_distance_only_sort (fun _ _ la _ => la)
    ⟨1, 2, "tourism", 5000⟩ []).2

/-- Modelled from the spec: "sort ascending by (descending importance,
ascending distance)" — the importance-weighted ranking variant, whose code
exists only in the repository's history, not under `src/` (the `POIResult`
model has no importance field at all). `imp` assigns each POI its
importance score; the list obeys the documented tie-break when every
earlier entry has strictly greater importance, or equal importance and no
greater distance. -/
def sortedByImportanceThenDistance (imp : POIResult ℝ → ℚ)
    (l : List (POIResult ℝ)) : Prop :=
  l.Pairwise (fun p q => imp q < imp p ∨ (imp q = imp p ∧ p.distance ≤ q.distance))

/-- Request centred at latitude 1, longitude 1 for the C4 counterexample. -/
def reqC4 : POISearchRequest := ⟨1, 1, "tourism", 5000⟩

/-- A POI at the request point itself (distance 0). -/
def elNear : OverpassElement :=
  ⟨some 1, some 1, none, none, [("name", "Near Park")], some "node"⟩

/-- A POI 90 degrees of longitude away (strictly positive distance). -/
def elFar : OverpassElement :=
  ⟨some 1, some 91, none, none, [("name", "Far Museum")], some "node"⟩

/-- The result entry `search_pois` builds from `elNear`. -/
noncomputable def poiNear : POIResult ℝ :=
  ⟨some "Near Park", 1, 1, "node", _haversine 1 1 1 1⟩

/-- The result entry `search_pois` builds from `elFar`. -/
noncomputable def poiFar : POIResult ℝ :=
  ⟨some "Far Museum", 1, 91, "node", _haversine 1 1 1 91⟩

/-- An importance assignment giving the far POI the strictly higher
score. -/
def impC4 : POIResult ℝ → ℚ :=
  fun p => if p.name = some "Far Museum" then mkRat 9 10 else mkRat 1 10

/-- Two points 90 degrees of longitude apart on the latitude-1 circle are
a strictly positive Haversine distance apart. -/
theorem haversine_far_pos : 0 < _haversine 1 1 1 91 := by
  unfold _haversine
  dsimp only
  have h0 : radians (1 - 1 : ℝ) / 2 = 0 := by norm_num [radians]
  have h90 : radians (91 - 1 : ℝ) / 2 = Real.pi / 4 := by unfold radians; ring
  rw [h0, h90, Real.sin_zero]
  have hr1 : radians (1 : ℝ) = Real.pi / 180 := by unfold radians; ring
  have hcos : 0 < Real.cos (radians (1 : ℝ)) := by
    rw [hr1]
    refine Real.cos_pos_of_mem_Ioo ⟨?_, ?_⟩ <;> nlinarith [Real.pi_pos]
  have hsin : 0 < Real.sin (Real.pi / 4) :=
    Real.sin_pos_of_pos_of_lt_pi (by linarith [Real.pi_pos]) (by linarith [Real.pi_pos])
  have ha : (0:ℝ) < 0 ^ 2 + Real.cos (radians (1:ℝ)) * Real.cos (radians (1:ℝ)) *
      Real.sin (Real.pi / 4) ^ 2 := by positivity
  have harc : 0 < Real.arcsin (Real.sqrt (0 ^ 2 +
      Real.cos (radians (1:ℝ)) * Real.cos (radians (1:ℝ)) *
        Real.sin (Real.pi / 4) ^ 2)) :=
    Real.arcsin_pos.mpr (Real.sqrt_pos.mpr ha)
  nlinarith [harc]

/-- Evaluation of `search_pois` on the two-element counterexample
response: the output is in ascending-distance order, near first. -/
theorem search_pois_C4_eval : search_pois reqC4 [elNear, elFar] = [poiNear, poiFar] := by
  have hle : _haversine (1:ℝ) 1 1 1 ≤ _haversine 1 1 1 91 := by
    rw [haversine_self]; exact le_of_lt haversine_far_pos
  unfold search_pois search_pois_core
  simp [reqC4, elNear, elFar, poiNear, poiFar, pyOrCoord, List.lookup, hle]

/-- C4 counterexample: on a concrete Overpass response with a
higher-importance POI farther away, `search_pois` returns the nearer,
lower-importance POI first — the output is *not* sorted by the claimed
tie-break (descending importance first, then ascending distance). The
code sorts by distance alone and carries no importance at all. -/
theorem claim_C4_counterexample :
    search_pois reqC4 [elNear, elFar] = [poiNear, poiFar] ∧
    impC4 poiNear < impC4 poiFar ∧
    ¬ sortedByImportanceThenDistance impC4 (search_pois reqC4 [elNear, elFar]) := by
  refine ⟨search_pois_C4_eval, by simp [impC4, poiNear, poiFar]; decide, ?_⟩
  rw [search_pois_C4_eval]
  unfold sortedByImportanceThenDistance
  simp [impC4, poiNear, poiFar]
  decide

/-!
## Claim theorems: orchestrator
-/

/-- C1: for every query string and every behavior of the four configured
tool clients (data, any exception, or timeout) and either completion
order of the concurrent optional calls, `handle_query` returns an
`AgentResponse` (the model is a total function — no tool-call failure
propagates), the results list holds exactly one entry per tool call that
succeeded (zero for each failed or skipped call), each tagged with that
tool's source name, and nothing else. -/
theorem claim_C1_one_result_per_successful_call (b : ClientBehaviors)
    (wikiFirst : Bool) (query : String) :
    sourceCount (handle_query b wikiFirst query) "geocoding" =
      (if b.geocoding.isOk then 1 else 0) ∧
    sourceCount (handle_query b wikiFirst query) "poi" =
      (if poiCalled b && b.poi.isOk then 1 else 0) ∧
    sourceCount (handle_query b wikiFirst query) "wikipedia" =
      (if b.wikipedia.isOk then 1 else 0) ∧
    sourceCount (handle_query b wikiFirst query) "trivia" =
      (if b.trivia.isOk then 1 else 0) ∧
    (handle_query b wikiFirst query).results.length =
      (if b.geocoding.isOk then 1 else 0) + (if poiCalled b && b.poi.isOk then 1 else 0) +
      (if b.wikipedia.isOk then 1 else 0) + (if b.trivia.isOk then 1 else 0) ∧
    ∀ r ∈ (handle_query b wikiFirst query).results,
      r.source ∈ (["geocoding", "poi", "wikipedia", "trivia"] : List String) := by
  obtain ⟨geo, poi, wiki, triv⟩ := b
  cases geo with
  | fail =>
      cases poi <;> cases wiki <;> cases triv <;> cases wikiFirst <;>
        simp [handle_query, handle_query_trace, sourceCount, poiCalled, Outcome.isOk]
  | ok d =>
      by_cases hpc : (pyTruthyDict d && hasKey d "lat" && hasKey d "lon") = true <;>
        cases poi <;> cases wiki <;> cases triv <;> cases wikiFirst <;>
          simp [handle_query, handle_query_trace, sourceCount, poiCalled,
            Outcome.isOk, hpc]

/-- Client behaviors exercising C1's witness: geocoding and POI succeed,
Wikipedia succeeds, trivia fails. -/
def bC1w : ClientBehaviors :=
  ⟨.ok [("lat", .num 1), ("lon", .num 2)], .ok .null, .ok .null, .fail⟩

/-- C1 witness: the theorem applied at a concrete behavior where the
trivia call fails — it contributes nothing while every successful call
contributes exactly one tagged entry. -/
theorem claim_C1_witness :
    sourceCount (handle_query bC1w true "Rome") "geocoding" = 1 ∧
    sourceCount (handle_query bC1w true "Rome") "poi" = 1 ∧
    sourceCount (handle_query bC1w true "Rome") "wikipedia" = 1 ∧
    sourceCount (handle_query bC1w true "Rome") "trivia" = 0 := by
  have h := claim_C1_one_result_per_successful_call bC1w true "Rome"
  exact ⟨by simpa using h.1, by simpa using h.2.1, by simpa using h.2.2.1,
    by simpa using h.2.2.2.1⟩

/-- C2: when the geocoding call fails (exception or timeout), the results
contain no `"geocoding"` entry and no `"poi"` entry (the POI call is
skipped), yet each optional source (`wikipedia`, `trivia`) still
contributes exactly one entry when its call succeeded. -/
theorem claim_C2_geocode_failure_excludes_geo_and_poi
    (poi wiki triv : Outcome JsonVal) (wikiFirst : Bool) (query : String) :
    sourceCount (handle_query ⟨.fail, poi, wiki, triv⟩ wikiFirst query) "geocoding" = 0 ∧
    sourceCount (handle_query ⟨.fail, poi, wiki, triv⟩ wikiFirst query) "poi" = 0 ∧
    sourceCount (handle_query ⟨.fail, poi, wiki, triv⟩ wikiFirst query) "wikipedia" =
      (if wiki.isOk then 1 else 0) ∧
    sourceCount (handle_query ⟨.fail, poi, wiki, triv⟩ wikiFirst query) "trivia" =
      (if triv.isOk then 1 else 0) := by
  cases poi <;> cases wiki <;> cases triv <;> cases wikiFirst <;>
    simp [handle_query, handle_query_trace, sourceCount, poiCalled, Outcome.isOk]

/-- C10: when geocoding *succeeds* but its dict lacks `"lat"` or `"lon"`
(including the empty dict `MCPClient.call` returns when the reply has no
structured content), the results still gain a `"geocoding"` entry while
the POI tool is never called — `"geocoding"` present without `"poi"` even
though geocoding did not fail. -/
theorem claim_C10_geocode_ok_without_coords (d : PyDict)
    (poi wiki triv : Outcome JsonVal) (wikiFirst : Bool) (query : String)
    (hmiss : ¬(hasKey d "lat" = true ∧ hasKey d "lon" = true)) :
    sourceCount (handle_query ⟨.ok d, poi, wiki, triv⟩ wikiFirst query) "geocoding" = 1 ∧
    sourceCount (handle_query ⟨.ok d, poi, wiki, triv⟩ wikiFirst query) "poi" = 0 := by
  have hpc : poiCalled ⟨.ok d, poi, wiki, triv⟩ = false := by
    unfold poiCalled
    cases hl : hasKey d "lat" <;> cases hlo : hasKey d "lon" <;> simp_all
  cases poi <;> cases wiki <;> cases triv <;> cases wikiFirst <;>
    simp [handle_query, handle_query_trace, sourceCount, hpc, Outcome.isOk]

/-- C10 witness: the empty dict (the `result.structuredContent or {}`
case of `MCPClient.call`). -/
theorem claim_C10_witness :
    (¬(hasKey [] "lat" = true ∧ hasKey [] "lon" = true)) ∧
    (sourceCount (handle_query ⟨.ok [], .ok .null, .ok .null, .ok .null⟩ true "Rome")
        "geocoding" = 1 ∧
     sourceCount (handle_query ⟨.ok [], .ok .null, .ok .null, .ok .null⟩ true "Rome")
        "poi" = 0) :=
  ⟨by decide, claim_C10_geocode_ok_without_coords [] (.ok .null) (.ok .null) (.ok .null)
    true "Rome" (by decide)⟩

/-- C3 (amended): the orchestrator does **not** parse the query before
dispatching — `parse_user_query` is never invoked by `handle_query`
(orchestrator.py's own TODO defers parsing to tasks T008–T009). For every
query and every client behavior, the raw query string is sent as the
geocoding location and the Wikipedia page name, the raw query is the
trivia topic, and the POI call (when it happens) always carries the fixed
category `"tourism"`. This coincides with the parser's documented
fallback (raw query as location, `"tourism"` as category). -/
theorem claim_C3_amended_raw_query_fixed_category (b : ClientBehaviors)
    (wikiFirst : Bool) (query : String) :
    (handle_query_trace b wikiFirst query).geocodingPayload =
      [("location_name", JsonVal.str query)] ∧
    (handle_query_trace b wikiFirst query).wikipediaPayload =
      [("poi_name", JsonVal.str query)] ∧
    (handle_query_trace b wikiFirst query).triviaPayload =
      [("topic", JsonVal.str query)] ∧
    ∀ pl, (handle_query_trace b wikiFirst query).poiPayload = some pl →
      List.lookup "category" pl = some (JsonVal.str "tourism") := by
  refine ⟨rfl, rfl, rfl, ?_⟩
  intro pl hpl
  unfold handle_query_trace at hpl
  dsimp only at hpl
  by_cases hpc : poiCalled b = true
  · rw [if_pos hpc] at hpl
    cases hg : b.geocoding with
    | ok d =>
        rw [hg] at hpl
        simp only [Option.some.injEq] at hpl
        subst hpl
        simp [List.lookup]
    | fail => rw [hg] at hpl; cases hpl
  · rw [if_neg hpc] at hpl; cases hpl

/-- The model reply used by the C3 counterexample: the language model
parses the query into location `"Rome"` and category `"restaurant"`. -/
def replyC3 : Outcome PyDict :=
  .ok [("location", .str "Rome"), ("category", .str "restaurant")]

/-- Client behaviors for the C3 theorems: geocoding succeeds with both
coordinates, so the POI tool is called. -/
def bC3 : ClientBehaviors :=
  ⟨.ok [("lat", .num 1), ("lon", .num 2)], .ok .null, .ok .null, .ok .null⟩

/-- C3 counterexample: for the query `"restaurants in Rome"` and a model
reply that parses it to `("Rome", "restaurant")`, the orchestrator
nevertheless sends the *raw query* (not the parsed location `"Rome"`) to
geocoding and Wikipedia, and the fixed category `"tourism"` (not the
parsed `"restaurant"`) to the POI search: the claimed parse-then-dispatch
behavior does not hold. -/
theorem claim_C3_counterexample :
    parse_user_query replyC3 "restaurants in Rome" = ("Rome", "restaurant") ∧
    (handle_query_trace bC3 true "restaurants in Rome").geocodingPayload =
      [("location_name", JsonVal.str "restaurants in Rome")] ∧
    [("location_name", JsonVal.str "restaurants in Rome")] ≠
      [("location_name", JsonVal.str "Rome")] ∧
    (handle_query_trace bC3 true "restaurants in Rome").wikipediaPayload =
      [("poi_name", JsonVal.str "restaurants in Rome")] ∧
    (handle_query_trace bC3 true "restaurants in Rome").poiPayload =
      some [("latitude", JsonVal.num 1), ("longitude", JsonVal.num 2),
            ("category", JsonVal.str "tourism")] ∧
    JsonVal.str "tourism" ≠ JsonVal.str "restaurant" := by
  refine ⟨by decide, rfl, by simp, rfl, rfl, by simp⟩

/-- C3 witness: the amended theorem applied at a concrete behavior where
the POI tool is called; its payload category is `"tourism"`. -/
theorem claim_C3_witness :
    (handle_query_trace bC3 true "Rome").poiPayload =
      some [("latitude", JsonVal.num 1), ("longitude", JsonVal.num 2),
            ("category", JsonVal.str "tourism")] ∧
    List.lookup "category"
      [("latitude", JsonVal.num 1), ("longitude", JsonVal.num 2),
       ("category", JsonVal.str "tourism")] = some (JsonVal.str "tourism") :=
  ⟨rfl, (claim_C3_amended_raw_query_fixed_category bC3 true "Rome").2.2.2 _ rfl⟩

/-!
## Claim theorems: trivia filtering
-/

/-- C6: a fact text that contains a topic word but neither any word of
the provided context nor any travel-relevant keyword is rejected by the
strict filtering stage (`matches_context` fails, so `_extract_fact_strict`
yields the empty triple) while the relaxed stage accepts it and returns it
as the fact. -/
theorem claim_C6_strict_rejects_relaxed_accepts
    (text source url ctx : String) (req : TriviaRequest)
    (hctx : req.context = some ctx) (hne : ctx ≠ "")
    (hcw : ∀ w ∈ pyWords (strLower ctx), pyIn w (strLower text) = false)
    (_htk : ∀ w ∈ TRAVEL_KEYWORDS, pyIn w (strLower text) = false)
    (htw : ∃ w ∈ pyWords (strLower req.topic), pyIn w (strLower text) = true) :
    matches_context text req = false ∧
    _extract_fact_strict [(text, source, url)] req = ("", "", "") ∧
    _extract_fact_relaxed [(text, source, url)] req = (text, source, url) := by
  have htruthy : contextTruthy req.context = true := by
    rw [hctx]; simp [contextTruthy, hne]
  have hctxany : (pyWords (strLower (req.context.getD ""))).any
      (fun w => pyIn w (strLower text)) = false := by
    rw [hctx]
    simp only [Option.getD_some]
    rw [List.any_eq_false]
    intro w hw
    simp [hcw w hw]
  have htopicany : (pyWords (strLower req.topic)).any
      (fun w => pyIn w (strLower text)) = true := by
    rw [List.any_eq_true]
    obtain ⟨w, hw, hpw⟩ := htw
    exact ⟨w, hw, by simp [hpw]⟩
  have hmc : matches_context text req = false := by
    simp [matches_context, htruthy, hctxany]
  refine ⟨hmc, ?_, ?_⟩
  · simp [_extract_fact_strict, List.find?_cons, hmc]
  · simp [_extract_fact_relaxed, List.find?_cons, htopicany, htruthy, hctxany]

/-- C6 witness: topic `"rome"`, context `"italy"`, fact `"rome is big"`
(topic word present, no context word, no travel keyword): strict stage
rejects, relaxed stage returns the fact. -/
theorem claim_C6_witness :
    matches_context "rome is big" ⟨"rome", some "italy"⟩ = false ∧
    _extract_fact_strict [("rome is big", "DuckDuckGo", "")]
      ⟨"rome", some "italy"⟩ = ("", "", "") ∧
    _extract_fact_relaxed [("rome is big", "DuckDuckGo", "")]
      ⟨"rome", some "italy"⟩ = ("rome is big", "DuckDuckGo", "") :=
  claim_C6_strict_rejects_relaxed_accepts "rome is big" "DuckDuckGo" "" "italy"
    ⟨"rome", some "italy"⟩ rfl (by decide) (by decide) (by decide) (by decide)

/-- C7: for every extracted fact whose source is absent from
`SOURCE_RELIABILITY` (after case-insensitive lowering), `score_source`
returns exactly 0.5, and `_get_trivia_impl` rejects the fact with the
`"Low reliability source"` runtime error because 0.5 is below the fixed
threshold 0.6. -/
theorem claim_C7_unlisted_source_rejected (data : DDGData)
    (req : TriviaRequest) (c : Candidate)
    (hx : extract_fact data req = c) (hfact : c.1 ≠ "")
    (hunlisted : List.lookup (strLower c.2.1) SOURCE_RELIABILITY = none) :
    score_source c.2.1 = mkRat 1 2 ∧
    _get_trivia_impl (.ok data) req = .error "Low reliability source" := by
  have hscore : score_source c.2.1 = mkRat 1 2 := by
    unfold score_source; rw [hunlisted]; rfl
  have hlt : mkRat 1 2 < RELIABILITY_THRESHOLD := by decide
  refine ⟨hscore, ?_⟩
  unfold _get_trivia_impl
  dsimp only
  rw [hx]
  simp [hfact, hscore, hlt]

/-- A DuckDuckGo reply whose abstract comes from an unlisted source. -/
def dataC7 : DDGData := ⟨some "rome is a city", some "SomeBlog", some "", []⟩

/-- C7 witness: source `"SomeBlog"` is not in the reliability table, the
extracted fact is nonempty, and the implementation raises the
low-reliability error. -/
theorem claim_C7_witness :
    extract_fact dataC7 ⟨"rome", none⟩ = ("rome is a city", "SomeBlog", "") ∧
    ("rome is a city" : String) ≠ "" ∧
    List.lookup (strLower "SomeBlog") SOURCE_RELIABILITY = none ∧
    (score_source "SomeBlog" = mkRat 1 2 ∧
     _get_trivia_impl (.ok dataC7) ⟨"rome", none⟩ = .error "Low reliability source") :=
  ⟨by decide, by decide, by decide,
    claim_C7_unlisted_source_rejected dataC7 ⟨"rome", none⟩
      ("rome is a city", "SomeBlog", "") (by decide) (by decide) (by decide)⟩
